import Mathlib

/-!
# RFSR Infrastructure Monitor: a shallow embedding of `src/hardware/main.cpp`

The firmware keeps its state in globals and function-local statics.  They are
gathered in the record `Device`; every firmware function becomes a function
from the state before the call to the state after it, together with the list
of externally visible effects (cloud publishes, pin writes) performed by that
call, in program order.

Machine integers are unbounded `Int`/`Nat` values; the operations that can
leave their type are reduced explicitly: the `uint8_t` increment of
`lastStateTally` modulo `2 ^ 8`, and the 32-bit reading of `millis()` modulo
`2 ^ 32`.  The `int` counter of `checkFuelGauge` is reset at 100 and stays far
from its bounds.  Timer callbacks are interleaved with the main loop between
whole function calls.

`publishFaults` is declared `bool` and has no `return` statement.  Its embedding
records this as `Completion.flowsOffEnd`: what it gives for the state and the
effects describes the statements of the function up to its closing brace; the
C++ standard leaves the behaviour of the program undefined from there on.
-/

namespace RFSR

/-! ## Static configuration (lines 10-26) -/

def TMR_HEARTBEATMS : Nat := 500
def TMR_PUBLISHMS : Nat := 1200000

/-- Modelled from the spec: `HIGH` comes from the platform header
`application.h`, which is not part of the repository; it is the level of a
digital pin at logic one. -/
def HIGH : Int := 1

/-- Modelled from the spec: `LOW` comes from the platform header
`application.h`, which is not part of the repository; it is the level of a
digital pin at logic zero. -/
def LOW : Int := 0

/-- Modelled from the spec: `TRUE` comes from the platform header
`application.h`, which is not part of the repository; the integer one. -/
def TRUE : Int := 1

/-- Modelled from the spec: `FALSE` comes from the platform header
`application.h`, which is not part of the repository; the integer zero. -/
def FALSE : Int := 0

def CFG_PWRLOSSITR : Nat := 100
def CFG_PWRLOSSPIN : Int := HIGH
def CFG_STRTUPPUBDELAY : Nat := 15000
def PUB_TTL : Nat := 60

/-- The digital pins the firmware names. -/
inductive Pin where
  | D4 | D5 | D6 | D7
deriving DecidableEq, Repr

def IO_HEARTBEAT : Pin := Pin.D7
def IO_POWERLOSS : Pin := Pin.D6
def IO_PB : Pin := Pin.D5
def IO_FAULTLED : Pin := Pin.D4

/-- Publish scope flag of the cloud transport; the firmware only uses `PRIVATE`. -/
inductive PublishScope where
  | PRIVATE
deriving DecidableEq, Repr

/-- Externally visible actions of the firmware: a call of `Particle.publish`
(an attempt, whatever the transport answers) and a call of `digitalWrite`. -/
inductive Effect where
  | publish (eventName : String) (data : String) (ttl : Nat) (scope : PublishScope)
  | digitalWrite (pin : Pin) (value : Int)
deriving DecidableEq, Repr

/-- Whether an effect is a call of `Particle.publish`. -/
def Effect.isPublish : Effect → Bool
  | Effect.publish _ _ _ _ => true
  | Effect.digitalWrite _ _ => false

/-- The publish attempts among the effects of a call. -/
def publishAttempts (effects : List Effect) : List Effect :=
  effects.filter Effect.isPublish

/-- The integral promotion of a C++ `bool`, as applied when a `bool` is compared
with the integer macros `TRUE` and `FALSE`. -/
def boolToInt (b : Bool) : Int := if b then 1 else 0

/-! ## Program state (globals, lines 50-51, and function statics) -/

/-- All state that survives a function call.  Statics and uninitialised globals
are zero-initialised at boot. -/
structure Device where
  /-- Global `volatile int8_t flagBackgroundPublish` (line 50). -/
  flagBackgroundPublish : Int
  /-- Global `int8_t flagParticleConnectionStateHeartbeat` (line 51). -/
  flagParticleConnectionStateHeartbeat : Int
  /-- Local `static int count` of `checkFuelGauge` (line 139). -/
  count : Int
  /-- Local `static bool lastPowerLossStatus` of `publishFaults` (line 175). -/
  lastPowerLossStatus : Bool
  /-- Local `static int8_t lastPinStatus` of `faultPowerLoss` (line 216). -/
  lastPinStatus : Int
  /-- Local `static uint8_t lastStateTally` of `faultPowerLoss` (line 217). -/
  lastStateTally : Nat
  /-- Output level of pin `IO_HEARTBEAT`. -/
  pinHeartbeat : Int
  /-- Output level of pin `IO_FAULTLED`. -/
  pinFaultLed : Int
deriving DecidableEq, Repr

/-- The state at boot: every static and global is zero. -/
def Device.boot : Device :=
  { flagBackgroundPublish := 0
    flagParticleConnectionStateHeartbeat := FALSE
    count := 0
    lastPowerLossStatus := false
    lastPinStatus := 0
    lastStateTally := 0
    pinHeartbeat := LOW
    pinFaultLed := LOW }

/-! ## `publishFaults` (lines 171-204) -/

/-- How a call of a function that is declared to return a `bool` ends: with a
`return` statement that gives a value, or by control reaching the closing brace
of the function without one.  The second is undefined behaviour in C++, also
when the caller discards the value: from that point on nothing is guaranteed
about what the program does. -/
inductive Completion where
  | returned (value : Bool)
  | flowsOffEnd
deriving DecidableEq, Repr

/-- The function `publishFaults`.  `publishStatus` is the value the transport
`Particle.publish` returns if it is called during this call.  The result is the
state and the effects that the statements of lines 179-202 leave when control
reaches the closing brace of line 204, and how the call ends.  The function is
declared `bool` (lines 36 and 171) and contains no `return` statement, so every
path ends in `Completion.flowsOffEnd`: the call has undefined behaviour, and
the first two components describe its statements, not a guarantee about the
running program. -/
def publishFaults (publishStatus : Bool) (flagPowerLossStatus : Bool) (d : Device) :
    Device × List Effect × Completion :=
  if boolToInt flagPowerLossStatus = TRUE ∧ boolToInt d.lastPowerLossStatus = FALSE then
    let publishData := "FLT_PWR"
    let attempt := Effect.publish "CRIT_FAULT" publishData PUB_TTL PublishScope.PRIVATE
    if boolToInt publishStatus = TRUE then
      ({ d with lastPowerLossStatus := flagPowerLossStatus }, [attempt], Completion.flowsOffEnd)
    else
      (d, [attempt], Completion.flowsOffEnd)
  else if boolToInt flagPowerLossStatus = FALSE ∧ boolToInt d.lastPowerLossStatus = TRUE then
    let publishData := "CLR_PWR"
    let attempt := Effect.publish "CRIT_FAULT" publishData PUB_TTL PublishScope.PRIVATE
    if boolToInt publishStatus = TRUE then
      ({ d with lastPowerLossStatus := flagPowerLossStatus }, [attempt], Completion.flowsOffEnd)
    else
      (d, [attempt], Completion.flowsOffEnd)
  else
    (d, [], Completion.flowsOffEnd)

/-! ## `faultPowerLoss` (lines 212-262) -/

/-- Conversion of an integer to a C++ `bool`, as applied when `TRUE` or `FALSE`
is assigned to the `bool` local `faultPowerLoss`. -/
def intToBool (i : Int) : Bool := decide (i ≠ 0)

/-- The condition of line 224 under which the tally is reset. -/
def tallyResets (pinStatus lastPinStatus : Int) : Bool :=
  decide (pinStatus = lastPinStatus ∧ pinStatus = CFG_PWRLOSSPIN)

/-- The function `faultPowerLoss`.  `pinStatus` is the value that
`digitalRead(IO_POWERLOSS)` yields in this call, as stored in the `int8_t` local.
The result is the new state, the effects, and the returned fault state. -/
def faultPowerLoss (pinStatus : Int) (d : Device) : Device × List Effect × Bool :=
  let lastStateTally :=
    if tallyResets pinStatus d.lastPinStatus = true then
      0
    else if d.lastStateTally ≤ CFG_PWRLOSSITR then
      (d.lastStateTally + 1) % 2 ^ 8
    else
      d.lastStateTally
  let d1 := { d with lastStateTally := lastStateTally, lastPinStatus := pinStatus }
  if lastStateTally ≥ CFG_PWRLOSSITR then
    ({ d1 with pinFaultLed := LOW }, [Effect.digitalWrite IO_FAULTLED LOW], intToBool FALSE)
  else
    ({ d1 with pinFaultLed := HIGH }, [Effect.digitalWrite IO_FAULTLED HIGH], intToBool TRUE)

/-- Consecutive calls of `faultPowerLoss`, one per loop iteration, on the given
pin samples.  The result lists, call by call, the state after the call, the
call's effects and the fault state it returned. -/
def faultPowerLossRun (d : Device) : List Int → List (Device × List Effect × Bool)
  | [] => []
  | pinStatus :: rest =>
    faultPowerLoss pinStatus d :: faultPowerLossRun (faultPowerLoss pinStatus d).1 rest

/-- For each call of a run of `faultPowerLoss`, whether that call met the reset
condition of line 224 in the state it was entered with. -/
def faultPowerLossResets (d : Device) : List Int → List Bool
  | [] => []
  | pinStatus :: rest =>
    tallyResets pinStatus d.lastPinStatus ::
      faultPowerLossResets (faultPowerLoss pinStatus d).1 rest

/-- The state after a run of `faultPowerLoss` calls. -/
def faultPowerLossFinal (d : Device) : List Int → Device
  | [] => d
  | pinStatus :: rest => faultPowerLossFinal (faultPowerLoss pinStatus d).1 rest

/-! ## Timer callbacks (lines 270-299) -/

/-- The function `heartbeatCallback`.  `digitalRead(IO_HEARTBEAT)` reads back the
level the output pin currently drives; `!pinState` is the C++ logical negation,
passed to `digitalWrite` as an integer. -/
def heartbeatCallback (d : Device) : Device × List Effect :=
  if d.flagParticleConnectionStateHeartbeat = TRUE then
    let d1 := { d with flagParticleConnectionStateHeartbeat := FALSE }
    let pinState := d1.pinHeartbeat
    let value := boolToInt (!(intToBool pinState))
    ({ d1 with pinHeartbeat := value }, [Effect.digitalWrite IO_HEARTBEAT value])
  else
    (d, [])

/-- The function `backgroundPublishCallback`. -/
def backgroundPublishCallback (d : Device) : Device × List Effect :=
  ({ d with flagBackgroundPublish := 1 }, [])

/-! ## `backgroundPublish` (lines 307-336) -/

/-- Modelled from the spec: the conversions `String(n)` and `String(n, DEC)` of the
platform's `String` class (header `application.h`, not part of the repository)
render an unsigned number in decimal. -/
def decimalNat (n : Nat) : String := toString n

/-- Modelled from the spec: the conversion `String(n)` of the platform's `String`
class (header `application.h`, not part of the repository) renders a signed
`int` in decimal. -/
def decimalInt (n : Int) : String := toString n

/-- The values `backgroundPublish` reads from the platform during one call. -/
structure Telemetry where
  /-- Result of `System.freeMemory()` (line 318). -/
  freeMemory : Nat
  /-- Field `rssi` of the result of `Cellular.RSSI()` (line 321). -/
  rssi : Int
  /-- Field `qual` of the result of `Cellular.RSSI()` (line 321). -/
  qual : Int
  /-- Result of `millis()` at line 325. -/
  millis : Nat
deriving DecidableEq, Repr

/-- The function `backgroundPublish`.  `publishSuccess` is the value the
transport `Particle.publish` returns in this call.  The result is the new state,
the effects, and the returned publish status. -/
def backgroundPublish (t : Telemetry) (publishSuccess : Bool) (d : Device) :
    Device × List Effect × Bool :=
  let freeMemory := decimalNat t.freeMemory
  let signalStatus := decimalInt t.rssi ++ "," ++ decimalInt t.qual
  let currentTime := decimalNat t.millis
  let publishData := currentTime ++ ", " ++ signalStatus ++ ", " ++ freeMemory
  ({ d with flagBackgroundPublish := 0 },
    [Effect.publish "z" publishData PUB_TTL PublishScope.PRIVATE], publishSuccess)

/-! ## `checkFuelGauge` (lines 135-163), `loop` (lines 94-127), `setup` (lines 62-86) -/

/-- The function `checkFuelGauge`.  Its readings of the fuel gauge and its serial
output touch neither the state nor the publish transport nor a pin; only the
static `count` is kept. -/
def checkFuelGauge (d : Device) : Device :=
  let count := if d.count = 100 then 0 else d.count
  { d with count := count + 1 }

/-- Modelled from the spec: the platform function `millis()` (header
`application.h`, not part of the repository) returns the elapsed uptime in
milliseconds as a 32-bit `unsigned long`, that is, reduced modulo `2 ^ 32`. -/
def millis (uptime : Nat) : Nat := uptime % 2 ^ 32

/-- What one iteration of `loop` reads from the platform. -/
structure LoopInput where
  /-- Result of `millis()` at line 101. -/
  startTime : Nat
  /-- The readings of `backgroundPublish`, should it run. -/
  telemetry : Telemetry
  /-- Answer of the transport to the publish of `backgroundPublish`, should it run. -/
  telemetryStatus : Bool
  /-- Result of `digitalRead(IO_POWERLOSS)` in `faultPowerLoss`. -/
  pinStatus : Int
  /-- Result of `Particle.connected()` (line 116). -/
  connected : Bool
  /-- Answer of the transport to the publish of `publishFaults`, should one be made. -/
  faultPublishStatus : Bool
deriving DecidableEq, Repr

/-- The condition of line 119 under which `publishFaults` is called. -/
def startupGateOpen (startTime : Nat) : Bool :=
  decide (startTime ≥ CFG_STRTUPPUBDELAY)

/-- The statements of `loop` before the startup gate (lines 101-116): the state
and the effects they leave, and the value of the local `flagPowerLossStatus`. -/
def loopHead (i : LoopInput) (d : Device) : Device × List Effect × Bool :=
  let r1 : Device × List Effect :=
    if d.flagBackgroundPublish = TRUE then
      ((backgroundPublish i.telemetry i.telemetryStatus d).1,
        (backgroundPublish i.telemetry i.telemetryStatus d).2.1)
    else
      (d, [])
  let d2 := checkFuelGauge r1.1
  let r3 := faultPowerLoss i.pinStatus d2
  let flagPowerLossStatus := r3.2.2
  let d4 := { r3.1 with flagParticleConnectionStateHeartbeat := boolToInt i.connected }
  (d4, r1.2 ++ r3.2.1, flagPowerLossStatus)

/-- The call of `publishFaults` that an iteration of `loop` makes (lines
119-122), if it makes one: the argument passed and the state in which the call
is entered. -/
def loopPublishFaultsCall (i : LoopInput) (d : Device) : Option (Bool × Device) :=
  if startupGateOpen i.startTime = true then
    some ((loopHead i d).2.2, (loopHead i d).1)
  else
    none

/-- The function `loop`: one iteration of the main loop, as the state and the
effects its statements leave.  With the startup gate open the iteration calls
`publishFaults`, whose statements are included; that call ends by flowing off
the end of the function (see `publishFaults`), so for such an iteration the
result describes the statements up to that point and is no guarantee about the
running program. -/
def loop (i : LoopInput) (d : Device) : Device × List Effect :=
  let startTime := i.startTime
  let h := loopHead i d
  let flagPowerLossStatus := h.2.2
  let r5 : Device × List Effect :=
    if startupGateOpen startTime = true then
      ((publishFaults i.faultPublishStatus flagPowerLossStatus h.1).1,
        (publishFaults i.faultPublishStatus flagPowerLossStatus h.1).2.1)
    else
      (h.1, [])
  (r5.1, h.2.1 ++ r5.2)

/-- The function `setup`: the start-up publish, whose result is ignored, followed
by a direct call of `backgroundPublishCallback`.  Pin modes, timer starts and the
serial port leave the modelled state untouched. -/
def setup (d : Device) : Device × List Effect :=
  let r := backgroundPublishCallback d
  (r.1, Effect.publish "SYS_POWERUP" "[app ver 0.51]" PUB_TTL PublishScope.PRIVATE :: r.2)

/-- The entry points through which the platform runs firmware code: `setup`
once, then iterations of `loop`, with firings of the two timers in between. -/
inductive Activation where
  | setup
  | loop (i : LoopInput)
  | heartbeatTimer
  | backgroundPublishTimer
deriving DecidableEq, Repr

/-- The code run by an activation. -/
def activate : Activation → Device → Device × List Effect
  | Activation.setup, d => setup d
  | Activation.loop i, d => loop i d
  | Activation.heartbeatTimer, d => heartbeatCallback d
  | Activation.backgroundPublishTimer, d => backgroundPublishCallback d

/-- Whether an effect is a publish attempt on the given event name (topic). -/
def Effect.isEvent (eventName : String) : Effect → Bool
  | Effect.publish name _ _ _ => name == eventName
  | Effect.digitalWrite _ _ => false

/-! ## Theorems -/

/-! ### `publishFaults` never returns a value (C1, C2, C4, C6, C13) -/

/-- Every call of `publishFaults` ends by flowing off the end of the function:
no path through lines 171-204 executes a `return` statement. -/
theorem publishFaults_completion (publishStatus current : Bool) (d : Device) :
    (publishFaults publishStatus current d).2.2 = Completion.flowsOffEnd := by
  simp only [publishFaults]
  split_ifs <;> rfl

theorem faultPowerLoss_tally (pinStatus : Int) (d : Device) :
    (faultPowerLoss pinStatus d).1.lastStateTally =
      if tallyResets pinStatus d.lastPinStatus = true then 0
      else if d.lastStateTally ≤ CFG_PWRLOSSITR then (d.lastStateTally + 1) % 2 ^ 8
      else d.lastStateTally := by
  simp only [faultPowerLoss]
  split_ifs <;> rfl

theorem faultPowerLoss_lastPin (pinStatus : Int) (d : Device) :
    (faultPowerLoss pinStatus d).1.lastPinStatus = pinStatus := by
  simp only [faultPowerLoss]
  split_ifs <;> rfl

theorem faultPowerLoss_result (pinStatus : Int) (d : Device) :
    (faultPowerLoss pinStatus d).2.2 =
      decide ((faultPowerLoss pinStatus d).1.lastStateTally < CFG_PWRLOSSITR) := by
  simp only [faultPowerLoss]
  split_ifs <;> simp_all [intToBool, TRUE, FALSE]
  omega

theorem faultPowerLoss_effects (pinStatus : Int) (d : Device) :
    (faultPowerLoss pinStatus d).2.1 =
      [Effect.digitalWrite IO_FAULTLED
        (if (faultPowerLoss pinStatus d).2.2 = true then HIGH else LOW)] := by
  simp only [faultPowerLoss]
  split_ifs <;> simp_all [intToBool, TRUE, FALSE]

theorem faultPowerLoss_tally_le (pinStatus : Int) (d : Device)
    (h : d.lastStateTally ≤ CFG_PWRLOSSITR + 1) :
    (faultPowerLoss pinStatus d).1.lastStateTally ≤ CFG_PWRLOSSITR + 1 := by
  rw [faultPowerLoss_tally]
  simp only [CFG_PWRLOSSITR] at *
  split_ifs <;> omega

theorem faultPowerLossRun_tally_le (samples : List Int) :
    ∀ d : Device, d.lastStateTally ≤ CFG_PWRLOSSITR + 1 →
      ∀ r ∈ faultPowerLossRun d samples, r.1.lastStateTally ≤ CFG_PWRLOSSITR + 1 := by
  induction samples with
  | nil => intro d _ r hr; simp [faultPowerLossRun] at hr
  | cons p rest ih =>
    intro d hd r hr
    simp only [faultPowerLossRun, List.mem_cons] at hr
    rcases hr with rfl | hr
    · exact faultPowerLoss_tally_le p d hd
    · exact ih _ (faultPowerLoss_tally_le p d hd) r hr

/-! ### C3: range of the debounce counter -/

set_option maxRecDepth 100000 in
/-- C3, counterexample: the claim bounds `lastStateTally` by THRESHOLD = 100 after
every call of every run from boot, but after 101 LOW samples from the boot state
the counter is 101. -/
theorem faultPowerLoss_tally_exceeds_threshold :
    ¬ (∀ samples : List Int, ∀ r ∈ faultPowerLossRun Device.boot samples,
        r.1.lastStateTally ≤ CFG_PWRLOSSITR) := by
  intro h
  have h101 := h (List.replicate 101 LOW)
    (faultPowerLoss LOW (faultPowerLossFinal Device.boot (List.replicate 100 LOW))) (by decide)
  revert h101
  decide

/-- C3, amended: along every run of `faultPowerLoss` from the boot state the
counter `lastStateTally` stays within [0, THRESHOLD + 1] = [0, 101] after every
call: the guard `lastStateTally <= CFG_PWRLOSSITR` still admits the increment at
100, so the increment saturates at 101; and 101 is reached. -/
theorem faultPowerLoss_tally_bounded (samples : List Int) :
    (∀ r ∈ faultPowerLossRun Device.boot samples,
        0 ≤ r.1.lastStateTally ∧ r.1.lastStateTally ≤ CFG_PWRLOSSITR + 1) ∧
    (∀ d : Device, ∀ pinStatus : Int, d.lastStateTally = CFG_PWRLOSSITR + 1 →
        tallyResets pinStatus d.lastPinStatus = false →
        (faultPowerLoss pinStatus d).1.lastStateTally = CFG_PWRLOSSITR + 1) := by
  refine ⟨fun r hr => ⟨Nat.zero_le _, ?_⟩, ?_⟩
  · exact faultPowerLossRun_tally_le samples Device.boot (by decide) r hr
  · intro d p hd hp
    rw [faultPowerLoss_tally, hp, hd]
    decide

/-- Witness of the amended C3 on the one-sample run `[LOW]` from boot. -/
theorem faultPowerLoss_tally_bounded_witness :
    faultPowerLoss LOW Device.boot ∈ faultPowerLossRun Device.boot [LOW] ∧
    (faultPowerLoss LOW Device.boot).1.lastStateTally ≤ CFG_PWRLOSSITR + 1 :=
  ⟨by decide, ((faultPowerLoss_tally_bounded [LOW]).1 _ (by decide)).2⟩

/-! ### C7: returned fault state and fault indicator -/

theorem publishFaults_frame (publishStatus current : Bool) (d : Device) :
    (publishFaults publishStatus current d).1 =
      { d with lastPowerLossStatus :=
          (publishFaults publishStatus current d).1.lastPowerLossStatus } := by
  simp only [publishFaults]
  split_ifs <;> rfl

theorem faultPowerLoss_ignores_publisher (pinStatus : Int) (d : Device) (b : Bool) :
    (faultPowerLoss pinStatus { d with lastPowerLossStatus := b }).2 =
      (faultPowerLoss pinStatus d).2 := by
  simp only [faultPowerLoss]
  split_ifs <;> rfl

/-- C7: on every call of `faultPowerLoss` the returned fault state is true iff
the counter after this call's update is below THRESHOLD (100) and false
otherwise; the call performs exactly one write, to `IO_FAULTLED`, of level HIGH
iff the returned value is true and LOW otherwise; and neither the write nor
the result depends on `lastPowerLossStatus` or on a publish result. -/
theorem faultPowerLoss_output (d : Device) (pinStatus : Int) :
    ((faultPowerLoss pinStatus d).2.2 = true ↔
      (faultPowerLoss pinStatus d).1.lastStateTally < CFG_PWRLOSSITR) ∧
    ((faultPowerLoss pinStatus d).2.2 = false ↔
      CFG_PWRLOSSITR ≤ (faultPowerLoss pinStatus d).1.lastStateTally) ∧
    (faultPowerLoss pinStatus d).2.1 =
      [Effect.digitalWrite IO_FAULTLED
        (if (faultPowerLoss pinStatus d).2.2 = true then HIGH else LOW)] ∧
    (faultPowerLoss pinStatus d).1.pinFaultLed =
      (if (faultPowerLoss pinStatus d).2.2 = true then HIGH else LOW) ∧
    (∀ b : Bool, (faultPowerLoss pinStatus { d with lastPowerLossStatus := b }).2 =
      (faultPowerLoss pinStatus d).2) ∧
    (∀ publishStatus current : Bool,
      (faultPowerLoss pinStatus (publishFaults publishStatus current d).1).2 =
        (faultPowerLoss pinStatus d).2) := by
  refine ⟨?_, ?_, faultPowerLoss_effects pinStatus d, ?_,
    faultPowerLoss_ignores_publisher pinStatus d, ?_⟩
  · rw [faultPowerLoss_result]; simp
  · rw [faultPowerLoss_result]; simp
  · simp only [faultPowerLoss]
    split_ifs <;> simp_all [intToBool, TRUE, FALSE]
  · intro publishStatus current
    rw [publishFaults_frame]
    exact faultPowerLoss_ignores_publisher pinStatus d _

/-! ### C8: the fault clears on the THRESHOLD-th call without a reset -/

theorem faultPowerLoss_tally_noReset (pinStatus : Int) (d : Device)
    (hreset : tallyResets pinStatus d.lastPinStatus = false)
    (hle : d.lastStateTally ≤ CFG_PWRLOSSITR) :
    (faultPowerLoss pinStatus d).1.lastStateTally = d.lastStateTally + 1 := by
  rw [faultPowerLoss_tally, hreset]
  simp only [CFG_PWRLOSSITR] at *
  simp only [Bool.false_eq_true, if_false, if_pos hle]
  omega

theorem faultPowerLossRun_noReset (samples : List Int) :
    ∀ d : Device, (∀ b ∈ faultPowerLossResets d samples, b = false) →
      d.lastStateTally + samples.length ≤ CFG_PWRLOSSITR + 1 →
      (faultPowerLossRun d samples).map (fun r => r.2.2) =
        (List.range samples.length).map
          (fun i => decide (d.lastStateTally + i + 1 < CFG_PWRLOSSITR)) := by
  induction samples with
  | nil => intro d _ _; simp [faultPowerLossRun]
  | cons p rest ih =>
    intro d hno hlen
    simp only [faultPowerLossResets, List.mem_cons, forall_eq_or_imp] at hno
    simp only [List.length_cons] at hlen
    have hstep := faultPowerLoss_tally_noReset p d hno.1 (by omega)
    have hrest := ih (faultPowerLoss p d).1 hno.2 (by omega)
    simp only [faultPowerLossRun, List.map_cons, List.length_cons, List.range_succ_eq_map,
      List.map_map, hrest, faultPowerLoss_result, hstep]
    refine congrArg₂ _ (by simp) (List.map_congr_left ?_)
    intro i _
    simp only [Function.comp_apply, Nat.succ_eq_add_one]
    congr 2
    omega

/-- C8: from any state whose counter is 0, over THRESHOLD = 100 consecutive
calls of `faultPowerLoss` none of which meets the reset condition, the call
returns fault-active (true) on each of calls 1..99 and fault-inactive (false) on
call 100. -/
theorem faultPowerLoss_clears_on_threshold_call (d : Device) (samples : List Int)
    (hzero : d.lastStateTally = 0) (hlen : samples.length = CFG_PWRLOSSITR)
    (hno : ∀ b ∈ faultPowerLossResets d samples, b = false) :
    (faultPowerLossRun d samples).map (fun r => r.2.2) = List.replicate 99 true ++ [false] := by
  rw [faultPowerLossRun_noReset samples d hno (by omega), hzero, hlen]
  decide

set_option maxRecDepth 100000 in
/-- Witness of C8: 100 LOW samples from the boot state. -/
theorem faultPowerLoss_clears_on_threshold_call_witness :
    Device.boot.lastStateTally = 0 ∧ (List.replicate 100 LOW).length = CFG_PWRLOSSITR ∧
    (∀ b ∈ faultPowerLossResets Device.boot (List.replicate 100 LOW), b = false) ∧
    (faultPowerLossRun Device.boot (List.replicate 100 LOW)).map (fun r => r.2.2) =
      List.replicate 99 true ++ [false] :=
  ⟨rfl, by decide, by decide,
    faultPowerLoss_clears_on_threshold_call Device.boot (List.replicate 100 LOW) rfl
      (by decide) (by decide)⟩

/-! ### C10: the scenario of 100 HIGH samples from boot -/

set_option maxRecDepth 100000 in
/-- C10, counterexample: the claim says every one of the 100 calls on HIGH
samples from boot yields FaultState = false; the first call already returns
true. -/
theorem faultPowerLoss_high_samples_not_all_clear :
    ¬ (∀ r ∈ faultPowerLossRun Device.boot (List.replicate 100 HIGH), r.2.2 = false) := by
  decide

set_option maxRecDepth 100000 in
/-- C10, amended: feeding 100 consecutive HIGH samples to `faultPowerLoss` from
the boot state yields FaultState = true (fault active) on every one of the 100
calls: the first call counts to 1, every later one resets the counter to 0, and
the counter never comes near THRESHOLD. -/
theorem faultPowerLoss_high_samples_all_active :
    (faultPowerLossRun Device.boot (List.replicate 100 HIGH)).map (fun r => r.2.2) =
      List.replicate 100 true ∧
    (faultPowerLossRun Device.boot (List.replicate 100 HIGH)).map
        (fun r => r.1.lastStateTally) = 1 :: List.replicate 99 0 := by
  decide

/-! ### C9: clearing requires THRESHOLD consecutive calls without a reset -/

theorem faultPowerLoss_tally_le_succ (pinStatus : Int) (d : Device) :
    (faultPowerLoss pinStatus d).1.lastStateTally ≤ d.lastStateTally + 1 := by
  rw [faultPowerLoss_tally]
  split_ifs
  · omega
  · exact Nat.mod_le _ _
  · omega

theorem faultPowerLoss_tally_reset (pinStatus : Int) (d : Device)
    (hreset : tallyResets pinStatus d.lastPinStatus = true) :
    (faultPowerLoss pinStatus d).1.lastStateTally = 0 := by
  rw [faultPowerLoss_tally, if_pos hreset]

theorem faultPowerLossRun_recent (samples : List Int) :
    ∀ (d : Device) (n : Nat) (r : Device × List Effect × Bool),
      (faultPowerLossRun d samples)[n]? = some r →
      r.1.lastStateTally ≤ d.lastStateTally + (n + 1) ∧
      r.2.2 = decide (r.1.lastStateTally < CFG_PWRLOSSITR) ∧
      ∀ j, j ≤ n → n + 1 ≤ j + r.1.lastStateTally →
        (faultPowerLossResets d samples)[j]? = some false := by
  induction samples with
  | nil => intro d n r hr; simp [faultPowerLossRun] at hr
  | cons p rest ih =>
    intro d n r hr
    have hsucc := faultPowerLoss_tally_le_succ p d
    have hpos : 0 < (faultPowerLoss p d).1.lastStateTally →
        tallyResets p d.lastPinStatus = false := by
      intro h
      cases hres : tallyResets p d.lastPinStatus
      · rfl
      · rw [faultPowerLoss_tally_reset p d hres] at h
        omega
    cases n with
    | zero =>
      simp only [faultPowerLossRun, List.getElem?_cons_zero, Option.some.injEq] at hr
      subst hr
      refine ⟨by omega, faultPowerLoss_result p d, ?_⟩
      intro j hj hn
      obtain rfl : j = 0 := by omega
      simp only [faultPowerLossResets, List.getElem?_cons_zero, Option.some.injEq]
      exact hpos (by omega)
    | succ m =>
      simp only [faultPowerLossRun, List.getElem?_cons_succ] at hr
      obtain ⟨hle, hret, hrec⟩ := ih (faultPowerLoss p d).1 m r hr
      refine ⟨by omega, hret, ?_⟩
      intro j hj hn
      cases j with
      | zero =>
        simp only [faultPowerLossResets, List.getElem?_cons_zero, Option.some.injEq]
        exact hpos (by omega)
      | succ i =>
        simp only [faultPowerLossResets, List.getElem?_cons_succ]
        exact hrec i (by omega) (by omega)

theorem faultPowerLossRun_append (l₁ l₂ : List Int) :
    ∀ d : Device, faultPowerLossRun d (l₁ ++ l₂) =
      faultPowerLossRun d l₁ ++ faultPowerLossRun (faultPowerLossFinal d l₁) l₂ := by
  induction l₁ with
  | nil => intro d; rfl
  | cons p rest ih => intro d; simp [faultPowerLossRun, faultPowerLossFinal, ih]

theorem faultPowerLoss_high_after_high (d : Device) (hpin : d.lastPinStatus = HIGH) :
    (faultPowerLoss HIGH d).1.lastStateTally = 0 :=
  faultPowerLoss_tally_reset HIGH d (by simp [tallyResets, hpin, CFG_PWRLOSSPIN])

theorem faultPowerLossRun_high_held (a : Nat) :
    ∀ d : Device, d.lastPinStatus = HIGH →
      (∀ r ∈ faultPowerLossRun d (List.replicate a HIGH), r.2.2 = true) ∧
      (faultPowerLossFinal d (List.replicate a HIGH)).lastStateTally ≤ d.lastStateTally ∧
      (faultPowerLossFinal d (List.replicate a HIGH)).lastPinStatus = HIGH := by
  induction a with
  | zero => intro d hpin; simp [faultPowerLossRun, faultPowerLossFinal, hpin]
  | succ k ih =>
    intro d hpin
    have hzero := faultPowerLoss_high_after_high d hpin
    obtain ⟨hall, htally, hlast⟩ := ih (faultPowerLoss HIGH d).1 (faultPowerLoss_lastPin HIGH d)
    simp only [List.replicate_succ, faultPowerLossRun, faultPowerLossFinal, List.mem_cons,
      forall_eq_or_imp]
    refine ⟨⟨?_, hall⟩, by omega, hlast⟩
    rw [faultPowerLoss_result, hzero]
    decide

theorem faultPowerLossRun_high (a : Nat) (d : Device)
    (hlow : d.lastStateTally + 1 < CFG_PWRLOSSITR) :
    (∀ r ∈ faultPowerLossRun d (List.replicate a HIGH), r.2.2 = true) ∧
    (faultPowerLossFinal d (List.replicate a HIGH)).lastStateTally ≤ d.lastStateTally + 1 := by
  cases a with
  | zero => simp [faultPowerLossRun, faultPowerLossFinal]
  | succ k =>
    have hsucc := faultPowerLoss_tally_le_succ HIGH d
    obtain ⟨hall, htally, _⟩ :=
      faultPowerLossRun_high_held k (faultPowerLoss HIGH d).1 (faultPowerLoss_lastPin HIGH d)
    simp only [List.replicate_succ, faultPowerLossRun, faultPowerLossFinal, List.mem_cons,
      forall_eq_or_imp]
    refine ⟨⟨?_, hall⟩, by omega⟩
    rw [faultPowerLoss_result]
    simp only [decide_eq_true_eq]
    omega

/-- C9: in every run of `faultPowerLoss` from the boot state, whenever call
number n + 1 returns fault-inactive (false), at least THRESHOLD = 100 calls have
been made and each of the 100 most recent calls, the current one included,
failed the reset condition; and from a state with counter 0, a single LOW sample
surrounded by any numbers of HIGH samples never makes a call return inactive. -/
theorem faultPowerLoss_inactive_needs_threshold_calls (samples : List Int) (d : Device)
    (a b : Nat) :
    (∀ (n : Nat) (r : Device × List Effect × Bool),
      (faultPowerLossRun Device.boot samples)[n]? = some r → r.2.2 = false →
        CFG_PWRLOSSITR ≤ n + 1 ∧
        ∀ j, n + 1 ≤ j + CFG_PWRLOSSITR → j ≤ n →
          (faultPowerLossResets Device.boot samples)[j]? = some false) ∧
    (d.lastStateTally = 0 →
      ∀ r ∈ faultPowerLossRun d (List.replicate a HIGH ++ LOW :: List.replicate b HIGH),
        r.2.2 = true) := by
  constructor
  · intro n r hr hinactive
    obtain ⟨hle, hret, hrec⟩ := faultPowerLossRun_recent samples Device.boot n r hr
    rw [hret] at hinactive
    simp only [decide_eq_false_iff_not, not_lt] at hinactive
    have hboot : Device.boot.lastStateTally = 0 := rfl
    refine ⟨by omega, ?_⟩
    intro j hj hjn
    exact hrec j hjn (by omega)
  · intro hzero r hr
    obtain ⟨hall₁, htally₁⟩ := faultPowerLossRun_high a d (by simp only [CFG_PWRLOSSITR]; omega)
    have hsucc := faultPowerLoss_tally_le_succ LOW (faultPowerLossFinal d (List.replicate a HIGH))
    obtain ⟨hall₂, _⟩ := faultPowerLossRun_high b
      (faultPowerLoss LOW (faultPowerLossFinal d (List.replicate a HIGH))).1
      (by simp only [CFG_PWRLOSSITR]; omega)
    rw [faultPowerLossRun_append] at hr
    simp only [faultPowerLossRun, List.mem_append, List.mem_cons] at hr
    rcases hr with hr | rfl | hr
    · exact hall₁ r hr
    · rw [faultPowerLoss_result]
      simp only [decide_eq_true_eq, CFG_PWRLOSSITR]
      omega
    · exact hall₂ r hr

set_option maxRecDepth 100000 in
/-- Witness of C9: call 100 of the run on 100 LOW samples from boot returns
inactive, and the run HIGH, HIGH, LOW, HIGH, HIGH starts with counter 0. -/
theorem faultPowerLoss_inactive_needs_threshold_calls_witness :
    ((faultPowerLossRun Device.boot (List.replicate 100 LOW))[99]? =
        some (faultPowerLoss LOW (faultPowerLossFinal Device.boot (List.replicate 99 LOW))) ∧
      (faultPowerLoss LOW (faultPowerLossFinal Device.boot (List.replicate 99 LOW))).2.2 = false ∧
      CFG_PWRLOSSITR ≤ 99 + 1 ∧
      ∀ j, 99 + 1 ≤ j + CFG_PWRLOSSITR → j ≤ 99 →
        (faultPowerLossResets Device.boot (List.replicate 100 LOW))[j]? = some false) ∧
    (Device.boot.lastStateTally = 0 ∧
      ∀ r ∈ faultPowerLossRun Device.boot (List.replicate 2 HIGH ++ LOW :: List.replicate 2 HIGH),
        r.2.2 = true) :=
  ⟨⟨by decide, by decide,
      (faultPowerLoss_inactive_needs_threshold_calls (List.replicate 100 LOW) Device.boot 2 2).1
        99 (faultPowerLoss LOW (faultPowerLossFinal Device.boot (List.replicate 99 LOW)))
        (by decide) (by decide)⟩,
    ⟨rfl,
      (faultPowerLoss_inactive_needs_threshold_calls (List.replicate 100 LOW) Device.boot 2 2).2
        rfl⟩⟩

/-! ### Edge-triggered publisher: the statements of one call -/

theorem publishFaults_edge (publishStatus current : Bool) (d : Device)
    (hedge : current ≠ d.lastPowerLossStatus) :
    publishFaults publishStatus current d =
      (if publishStatus = true then { d with lastPowerLossStatus := current } else d,
        [Effect.publish "CRIT_FAULT" (if current = true then "FLT_PWR" else "CLR_PWR")
          PUB_TTL PublishScope.PRIVATE], Completion.flowsOffEnd) := by
  cases current <;> cases publishStatus <;> cases hl : d.lastPowerLossStatus <;>
    simp_all [publishFaults, boolToInt, TRUE, FALSE]

theorem publishFaults_same (publishStatus current : Bool) (d : Device)
    (hsame : current = d.lastPowerLossStatus) :
    publishFaults publishStatus current d = (d, [], Completion.flowsOffEnd) := by
  cases current <;> cases publishStatus <;> cases hl : d.lastPowerLossStatus <;>
    simp_all [publishFaults, boolToInt, TRUE, FALSE]

/-! ### C5: two consecutive calls reporting the same fault state -/

/-- C5, counterexample: from the boot state, the statements of two consecutive
calls `publishFaults(true)` whose publishes both fail both make a publish call. -/
theorem publishFaults_retry_publishes_twice :
    publishAttempts (publishFaults false true Device.boot).2.1 ≠ [] ∧
    publishAttempts
      (publishFaults false true (publishFaults false true Device.boot).1).2.1 ≠ [] := by
  decide

/-- C5, amended: the statements of two consecutive calls `publishFaults(b);
publishFaults(b)` both make a publish call exactly when `b` differs from the
stored state and the transport returned false in the first call (the second
call is then the retry of the unacknowledged edge); if the first publish is
acknowledged, or the first call makes no attempt, the second call makes no
publish call.  What follows a call reaching the end of the function, which has
no `return`, is left out. -/
theorem publishFaults_consecutive_same (d : Device) (b first second : Bool) :
    ((publishAttempts (publishFaults first b d).2.1 ≠ [] ∧
        publishAttempts (publishFaults second b (publishFaults first b d).1).2.1 ≠ []) ↔
      (b ≠ d.lastPowerLossStatus ∧ first = false)) ∧
    (first = true →
      publishAttempts (publishFaults second b (publishFaults first b d).1).2.1 = []) ∧
    (publishAttempts (publishFaults first b d).2.1 = [] →
      publishAttempts (publishFaults second b (publishFaults first b d).1).2.1 = []) := by
  cases b <;> cases first <;> cases second <;> cases hl : d.lastPowerLossStatus <;>
    simp_all [publishFaults, publishAttempts, Effect.isPublish, boolToInt, TRUE, FALSE]

/-- Witness of the amended C5: from boot, an acknowledged first publish, and a
first call on a held state with a transport that answers false. -/
theorem publishFaults_consecutive_same_witness :
    (true = true ∧
      publishAttempts
        (publishFaults false true (publishFaults true true Device.boot).1).2.1 = []) ∧
    (publishAttempts (publishFaults false false Device.boot).2.1 = [] ∧
      publishAttempts
        (publishFaults true false (publishFaults false false Device.boot).1).2.1 = []) :=
  ⟨⟨rfl, (publishFaults_consecutive_same Device.boot true true false).2.1 rfl⟩,
    ⟨by decide,
      (publishFaults_consecutive_same Device.boot false false true).2.2 (by decide)⟩⟩

/-! ### C15: the debounce step rule -/

/-- C15: for every prior state and every sample, after one call of
`faultPowerLoss` the counter is 0 iff the sample equals the prior
`lastPinStatus` and equals `CFG_PWRLOSSPIN` (HIGH); when that reset condition
fails the counter is not decreased; and `lastPinStatus` equals the sample in
every case. -/
theorem faultPowerLoss_step_rule (d : Device) (pinStatus : Int) :
    ((faultPowerLoss pinStatus d).1.lastStateTally = 0 ↔
      (pinStatus = d.lastPinStatus ∧ pinStatus = CFG_PWRLOSSPIN)) ∧
    (¬ (pinStatus = d.lastPinStatus ∧ pinStatus = CFG_PWRLOSSPIN) →
      d.lastStateTally ≤ (faultPowerLoss pinStatus d).1.lastStateTally) ∧
    (faultPowerLoss pinStatus d).1.lastPinStatus = pinStatus ∧
    CFG_PWRLOSSPIN = HIGH := by
  refine ⟨?_, ?_, faultPowerLoss_lastPin pinStatus d, rfl⟩
  · rw [faultPowerLoss_tally]
    by_cases h : pinStatus = d.lastPinStatus ∧ pinStatus = CFG_PWRLOSSPIN
    · have hr : tallyResets pinStatus d.lastPinStatus = true := decide_eq_true h
      rw [if_pos hr]
      exact ⟨fun _ => h, fun _ => rfl⟩
    · simp only [tallyResets, h, decide_False, Bool.false_eq_true, if_false, iff_false,
        CFG_PWRLOSSITR]
      split_ifs <;> omega
  · intro h
    rw [faultPowerLoss_tally]
    simp only [tallyResets, h, decide_False, Bool.false_eq_true, if_false, CFG_PWRLOSSITR]
    split_ifs <;> omega

/-- Witness of C15: a LOW sample at boot fails the reset condition and the
counter goes from 0 to 1. -/
theorem faultPowerLoss_step_rule_witness :
    ¬ (LOW = Device.boot.lastPinStatus ∧ LOW = CFG_PWRLOSSPIN) ∧
    Device.boot.lastStateTally ≤ (faultPowerLoss LOW Device.boot).1.lastStateTally ∧
    (faultPowerLoss LOW Device.boot).1.lastStateTally ≠ 0 :=
  ⟨by decide, (faultPowerLoss_step_rule Device.boot LOW).2.1 (by decide),
    fun h => absurd ((faultPowerLoss_step_rule Device.boot LOW).1.mp h) (by decide)⟩

/-! ### C16: asserting the fault from the inactive state -/

/-- C16, counterexample: after 100 LOW samples from boot the fault is inactive
(the counter is at THRESHOLD), and the very next call, on a HIGH sample,
still returns fault-inactive. -/
theorem faultPowerLoss_first_high_stays_inactive :
    CFG_PWRLOSSITR ≤ (faultPowerLossFinal Device.boot (List.replicate 100 LOW)).lastStateTally ∧
    (faultPowerLoss HIGH (faultPowerLossFinal Device.boot (List.replicate 100 LOW))).2.2 =
      false := by
  set_option maxRecDepth 100000 in decide

/-- C16, amended: from every debounce state in which the fault is inactive
(`lastStateTally >= THRESHOLD`), a call of `faultPowerLoss` whose sample is HIGH
(`CFG_PWRLOSSPIN`) returns fault-active in that same call iff the previous
sample was HIGH as well; otherwise that call still returns inactive, and the
next call on a HIGH sample, the second in a row, returns fault-active.  So the
fault is asserted by the second of two consecutive HIGH samples. -/
theorem faultPowerLoss_asserts_on_second_high (d : Device)
    (hinactive : CFG_PWRLOSSITR ≤ d.lastStateTally) :
    ((faultPowerLoss CFG_PWRLOSSPIN d).2.2 = true ↔ d.lastPinStatus = CFG_PWRLOSSPIN) ∧
    (faultPowerLoss CFG_PWRLOSSPIN (faultPowerLoss CFG_PWRLOSSPIN d).1).2.2 = true := by
  constructor
  · rw [faultPowerLoss_result, faultPowerLoss_tally]
    simp only [CFG_PWRLOSSITR] at *
    by_cases h : d.lastPinStatus = CFG_PWRLOSSPIN
    · simp [tallyResets, h]
    · have h' : ¬ CFG_PWRLOSSPIN = d.lastPinStatus := fun e => h e.symm
      simp only [tallyResets, h', false_and, decide_False, Bool.false_eq_true, if_false,
        decide_eq_true_eq, h, iff_false, not_lt]
      split_ifs <;> omega
  · rw [faultPowerLoss_result, faultPowerLoss_tally_reset]
    · decide
    · simp [tallyResets, faultPowerLoss_lastPin]

set_option maxRecDepth 100000 in
/-- Witness of the amended C16: the state after 100 LOW samples from boot. -/
theorem faultPowerLoss_asserts_on_second_high_witness :
    CFG_PWRLOSSITR ≤ (faultPowerLossFinal Device.boot (List.replicate 100 LOW)).lastStateTally ∧
    (faultPowerLoss CFG_PWRLOSSPIN (faultPowerLoss CFG_PWRLOSSPIN
      (faultPowerLossFinal Device.boot (List.replicate 100 LOW))).1).2.2 = true :=
  ⟨by decide,
    (faultPowerLoss_asserts_on_second_high
      (faultPowerLossFinal Device.boot (List.replicate 100 LOW)) (by decide)).2⟩

/-! ### C19: the 8-bit counter never wraps -/

theorem faultPowerLoss_tally_noReset_exact (pinStatus : Int) (d : Device)
    (hreset : tallyResets pinStatus d.lastPinStatus = false) :
    (faultPowerLoss pinStatus d).1.lastStateTally =
      if d.lastStateTally ≤ CFG_PWRLOSSITR then d.lastStateTally + 1 else d.lastStateTally := by
  rw [faultPowerLoss_tally, hreset]
  simp only [Bool.false_eq_true, if_false, CFG_PWRLOSSITR]
  split_ifs with h
  · exact Nat.mod_eq_of_lt (by omega)
  · rfl

theorem faultPowerLossRun_noReset_monotone (samples : List Int) :
    ∀ d : Device, (∀ b ∈ faultPowerLossResets d samples, b = false) →
      List.Chain (fun x y => x ≤ y) d.lastStateTally
        ((faultPowerLossRun d samples).map (fun r => r.1.lastStateTally)) ∧
      (CFG_PWRLOSSITR ≤ d.lastStateTally →
        ∀ r ∈ faultPowerLossRun d samples, r.2.2 = false) := by
  induction samples with
  | nil => intro d _; simp [faultPowerLossRun]
  | cons p rest ih =>
    intro d hno
    simp only [faultPowerLossResets, List.mem_cons, forall_eq_or_imp] at hno
    have hstep := faultPowerLoss_tally_noReset_exact p d hno.1
    have hle : d.lastStateTally ≤ (faultPowerLoss p d).1.lastStateTally := by
      rw [hstep]; split_ifs <;> omega
    obtain ⟨hchain, hstay⟩ := ih (faultPowerLoss p d).1 hno.2
    simp only [faultPowerLossRun, List.map_cons, List.chain_cons, List.mem_cons,
      forall_eq_or_imp]
    refine ⟨⟨hle, hchain⟩, fun hin => ⟨?_, hstay (by omega)⟩⟩
    rw [faultPowerLoss_result]
    simp only [decide_eq_false_iff_not, not_lt]
    omega

/-- C19: the 8-bit debounce counter never wraps.  For every `uint8_t` value of
`lastStateTally` and every sample, a call of `faultPowerLoss` that does not
reset yields a counter that is at least the prior one, equal to the prior one
plus 1 (while the prior one is at most `CFG_PWRLOSSITR`) or to the prior one,
computed without wrap-around and again a `uint8_t` value; along every run
without a reset the counter is non-decreasing, and once the fault is inactive
it stays inactive on every following call of the run. -/
theorem faultPowerLoss_counter_never_wraps (d : Device) (pinStatus : Int)
    (samples : List Int) :
    (d.lastStateTally < 2 ^ 8 → tallyResets pinStatus d.lastPinStatus = false →
      d.lastStateTally ≤ (faultPowerLoss pinStatus d).1.lastStateTally ∧
      (faultPowerLoss pinStatus d).1.lastStateTally =
        (if d.lastStateTally ≤ CFG_PWRLOSSITR then d.lastStateTally + 1
          else d.lastStateTally) ∧
      (faultPowerLoss pinStatus d).1.lastStateTally < 2 ^ 8) ∧
    ((∀ b ∈ faultPowerLossResets d samples, b = false) →
      List.Chain (fun x y => x ≤ y) d.lastStateTally
        ((faultPowerLossRun d samples).map (fun r => r.1.lastStateTally)) ∧
      (CFG_PWRLOSSITR ≤ d.lastStateTally →
        ∀ r ∈ faultPowerLossRun d samples, r.2.2 = false)) := by
  refine ⟨?_, faultPowerLossRun_noReset_monotone samples d⟩
  intro hlt hreset
  have hstep := faultPowerLoss_tally_noReset_exact pinStatus d hreset
  refine ⟨?_, hstep, ?_⟩
  · rw [hstep]; split_ifs <;> omega
  · rw [hstep]
    simp only [CFG_PWRLOSSITR]
    split_ifs <;> omega

set_option maxRecDepth 100000 in
/-- Witness of C19: the state after 100 LOW samples from boot (fault inactive),
followed by the samples LOW, HIGH, LOW, none of which resets. -/
theorem faultPowerLoss_counter_never_wraps_witness :
    (faultPowerLossFinal Device.boot (List.replicate 100 LOW)).lastStateTally = 100 ∧
    (∀ b ∈ faultPowerLossResets (faultPowerLossFinal Device.boot (List.replicate 100 LOW))
      [LOW, HIGH, LOW], b = false) ∧
    (faultPowerLoss LOW
      (faultPowerLossFinal Device.boot (List.replicate 100 LOW))).1.lastStateTally = 101 ∧
    (∀ r ∈ faultPowerLossRun (faultPowerLossFinal Device.boot (List.replicate 100 LOW))
      [LOW, HIGH, LOW], r.2.2 = false) :=
  ⟨by decide, by decide,
    ((faultPowerLoss_counter_never_wraps
      (faultPowerLossFinal Device.boot (List.replicate 100 LOW)) LOW [LOW, HIGH, LOW]).1
      (by decide) (by decide)).2.1.trans (by decide),
    ((faultPowerLoss_counter_never_wraps
      (faultPowerLossFinal Device.boot (List.replicate 100 LOW)) LOW [LOW, HIGH, LOW]).2
      (by decide)).2 (by decide)⟩

/-! ### C12 and C17: the timer callbacks -/

theorem heartbeatCallback_frame (d : Device) :
    (heartbeatCallback d).1 =
      { d with
        pinHeartbeat := (heartbeatCallback d).1.pinHeartbeat
        flagParticleConnectionStateHeartbeat :=
          (heartbeatCallback d).1.flagParticleConnectionStateHeartbeat } := by
  simp only [heartbeatCallback]
  split_ifs <;> rfl

theorem heartbeatCallback_due (d : Device)
    (hflag : d.flagParticleConnectionStateHeartbeat = TRUE) :
    heartbeatCallback d =
      ({ d with
          flagParticleConnectionStateHeartbeat := FALSE
          pinHeartbeat := if d.pinHeartbeat = LOW then HIGH else LOW },
        [Effect.digitalWrite IO_HEARTBEAT (if d.pinHeartbeat = LOW then HIGH else LOW)]) := by
  simp only [heartbeatCallback, hflag, if_true, boolToInt, intToBool, LOW, HIGH]
  by_cases hp : d.pinHeartbeat = 0 <;> simp [hp]

theorem heartbeatCallback_idle (d : Device)
    (hflag : d.flagParticleConnectionStateHeartbeat ≠ TRUE) :
    heartbeatCallback d = (d, []) := by
  simp only [heartbeatCallback, if_neg hflag]

theorem loop_heartbeat_flag (i : LoopInput) (d : Device) :
    (loop i d).1.flagParticleConnectionStateHeartbeat = boolToInt i.connected := by
  simp only [loop, loopHead]
  split_ifs <;> first | rfl | rw [publishFaults_frame]

/-- The heartbeat flag only ever holds `TRUE` or `FALSE`: it is `FALSE` at
boot, and every activation of firmware code keeps it one of the two. -/
theorem activate_heartbeat_flag (a : Activation) (d : Device)
    (hflag : d.flagParticleConnectionStateHeartbeat = TRUE ∨
      d.flagParticleConnectionStateHeartbeat = FALSE) :
    (Device.boot.flagParticleConnectionStateHeartbeat = FALSE) ∧
    ((activate a d).1.flagParticleConnectionStateHeartbeat = TRUE ∨
      (activate a d).1.flagParticleConnectionStateHeartbeat = FALSE) := by
  refine ⟨rfl, ?_⟩
  cases a with
  | setup => simpa [activate, setup, backgroundPublishCallback] using hflag
  | loop i =>
    simp only [activate, loop_heartbeat_flag]
    cases i.connected <;> simp [boolToInt, TRUE, FALSE]
  | heartbeatTimer =>
    simp only [activate]
    by_cases h : d.flagParticleConnectionStateHeartbeat = TRUE
    · rw [heartbeatCallback_due d h]; exact Or.inr rfl
    · rw [heartbeatCallback_idle d h]; exact hflag
  | backgroundPublishTimer => simpa [activate, backgroundPublishCallback] using hflag

/-- C12: `heartbeatCallback` inverts the heartbeat pin exactly once iff
`flagParticleConnectionStateHeartbeat` is TRUE on entry and leaves the pin at
its last level, writing nothing, otherwise; in every case the flag is FALSE on
exit; hence a second firing with nothing setting the flag in between does not
toggle the pin again.  The flag holds TRUE or FALSE in every state of the program. -/
theorem heartbeatCallback_toggles_once (d : Device)
    (hflag : d.flagParticleConnectionStateHeartbeat = TRUE ∨
      d.flagParticleConnectionStateHeartbeat = FALSE) :
    (d.flagParticleConnectionStateHeartbeat = TRUE →
      (heartbeatCallback d).2 =
        [Effect.digitalWrite IO_HEARTBEAT (if d.pinHeartbeat = LOW then HIGH else LOW)] ∧
      (heartbeatCallback d).1.pinHeartbeat = (if d.pinHeartbeat = LOW then HIGH else LOW) ∧
      (heartbeatCallback d).1.pinHeartbeat ≠ d.pinHeartbeat) ∧
    (d.flagParticleConnectionStateHeartbeat ≠ TRUE →
      (heartbeatCallback d).2 = [] ∧
      (heartbeatCallback d).1.pinHeartbeat = d.pinHeartbeat) ∧
    (heartbeatCallback d).1.flagParticleConnectionStateHeartbeat = FALSE ∧
    heartbeatCallback (heartbeatCallback d).1 = ((heartbeatCallback d).1, []) := by
  have hexit : (heartbeatCallback d).1.flagParticleConnectionStateHeartbeat = FALSE := by
    rcases hflag with h | h
    · rw [heartbeatCallback_due d h]
    · rw [heartbeatCallback_idle d (by rw [h]; decide)]; exact h
  refine ⟨?_, ?_, hexit, ?_⟩
  · intro h
    rw [heartbeatCallback_due d h]
    refine ⟨rfl, rfl, ?_⟩
    simp only [LOW, HIGH]
    split_ifs with hp
    · rw [hp]; decide
    · exact fun e => hp e.symm
  · intro h
    rw [heartbeatCallback_idle d h]
    exact ⟨rfl, rfl⟩
  · exact heartbeatCallback_idle _ (by rw [hexit]; decide)

/-- Witness of C12: a checked-in connection at boot level LOW. -/
theorem heartbeatCallback_toggles_once_witness :
    ({ Device.boot with flagParticleConnectionStateHeartbeat := TRUE }
        ).flagParticleConnectionStateHeartbeat = TRUE ∧
    (heartbeatCallback { Device.boot with flagParticleConnectionStateHeartbeat := TRUE }).2 =
      [Effect.digitalWrite IO_HEARTBEAT HIGH] ∧
    (heartbeatCallback (heartbeatCallback
      { Device.boot with flagParticleConnectionStateHeartbeat := TRUE }).1).2 = [] :=
  ⟨rfl,
    ((heartbeatCallback_toggles_once
      { Device.boot with flagParticleConnectionStateHeartbeat := TRUE } (Or.inl rfl)).1 rfl).1,
    congrArg Prod.snd (heartbeatCallback_toggles_once
      { Device.boot with flagParticleConnectionStateHeartbeat := TRUE } (Or.inl rfl)).2.2.2⟩

theorem heartbeatCallback_no_publish (d : Device) :
    publishAttempts (heartbeatCallback d).2 = [] := by
  by_cases h : d.flagParticleConnectionStateHeartbeat = TRUE
  · rw [heartbeatCallback_due d h]; rfl
  · rw [heartbeatCallback_idle d h]; rfl

/-- C17: timer callbacks never publish.  `backgroundPublishCallback` sets
`flagBackgroundPublish` to 1, changes nothing else and performs no effect;
`heartbeatCallback` makes no publish attempt, writes no pin but `IO_HEARTBEAT`
and changes only the heartbeat pin and `flagParticleConnectionStateHeartbeat`;
so an activation of firmware code that makes a publish attempt is `setup` or an
iteration of `loop`. -/
theorem timer_callbacks_never_publish (d : Device) (a : Activation) :
    backgroundPublishCallback d = ({ d with flagBackgroundPublish := 1 }, []) ∧
    publishAttempts (heartbeatCallback d).2 = [] ∧
    (∀ e ∈ (heartbeatCallback d).2, ∃ value, e = Effect.digitalWrite IO_HEARTBEAT value) ∧
    (heartbeatCallback d).1 =
      { d with
        pinHeartbeat := (heartbeatCallback d).1.pinHeartbeat
        flagParticleConnectionStateHeartbeat :=
          (heartbeatCallback d).1.flagParticleConnectionStateHeartbeat } ∧
    (publishAttempts (activate a d).2 ≠ [] →
      a = Activation.setup ∨ ∃ i, a = Activation.loop i) := by
  refine ⟨rfl, heartbeatCallback_no_publish d, ?_, heartbeatCallback_frame d, ?_⟩
  · intro e he
    by_cases h : d.flagParticleConnectionStateHeartbeat = TRUE
    · rw [heartbeatCallback_due d h] at he
      exact ⟨_, List.mem_singleton.mp he⟩
    · rw [heartbeatCallback_idle d h] at he
      simp at he
  · intro hpub
    cases a with
    | setup => exact Or.inl rfl
    | loop i => exact Or.inr ⟨i, rfl⟩
    | heartbeatTimer => exact absurd (heartbeatCallback_no_publish d) hpub
    | backgroundPublishTimer => exact absurd rfl hpub

/-- Witness of C17: the publishing activation `setup` at boot. -/
theorem timer_callbacks_never_publish_witness :
    publishAttempts (activate Activation.setup Device.boot).2 ≠ [] ∧
    (Activation.setup = Activation.setup ∨ ∃ i, Activation.setup = Activation.loop i) :=
  ⟨by decide,
    (timer_callbacks_never_publish Device.boot Activation.setup).2.2.2.2 (by decide)⟩

/-! ### C18: the telemetry payload -/

/-- C18: for every uptime reading, signal pair and free-memory count,
`backgroundPublish` attempts exactly one publish, with TTL 60 and scope PRIVATE
(on the event "z"), whose payload is the decimal rendering of the uptime, then
", ", then rssi, then ",", then qual, then ", ", then the free memory; and it
returns exactly the transport's result. -/
theorem backgroundPublish_payload (t : Telemetry) (publishSuccess : Bool) (d : Device) :
    (backgroundPublish t publishSuccess d).2.1 =
      [Effect.publish "z"
        (decimalNat t.millis ++ (", " ++ (decimalInt t.rssi ++ ("," ++ (decimalInt t.qual ++
          (", " ++ decimalNat t.freeMemory))))))
        60 PublishScope.PRIVATE] ∧
    (publishAttempts (backgroundPublish t publishSuccess d).2.1).length = 1 ∧
    (backgroundPublish t publishSuccess d).2.2 = publishSuccess := by
  refine ⟨?_, rfl, rfl⟩
  simp only [backgroundPublish, PUB_TTL, String.append_assoc]

/-- Witness of C18 on concrete readings: uptime 1200000 ms, rssi -73, qual 37,
free memory 62000. -/
theorem backgroundPublish_payload_witness :
    (backgroundPublish { freeMemory := 62000, rssi := -73, qual := 37, millis := 1200000 }
      false Device.boot).2 =
      ([Effect.publish "z" "1200000, -73,37, 62000" 60 PublishScope.PRIVATE], false) := by
  have h := backgroundPublish_payload
    { freeMemory := 62000, rssi := -73, qual := 37, millis := 1200000 } false Device.boot
  refine Prod.ext (h.1.trans ?_) h.2.2
  decide

/-! ### The main loop: how its parts compose -/

theorem faultPowerLoss_frame (pinStatus : Int) (d : Device) :
    (faultPowerLoss pinStatus d).1 =
      { d with
        lastStateTally := (faultPowerLoss pinStatus d).1.lastStateTally
        lastPinStatus := (faultPowerLoss pinStatus d).1.lastPinStatus
        pinFaultLed := (faultPowerLoss pinStatus d).1.pinFaultLed } := by
  simp only [faultPowerLoss]
  split_ifs <;> rfl

theorem faultPowerLoss_flagBackgroundPublish (pinStatus : Int) (d : Device) :
    (faultPowerLoss pinStatus d).1.flagBackgroundPublish = d.flagBackgroundPublish := by
  rw [faultPowerLoss_frame]

theorem faultPowerLoss_lastPowerLossStatus (pinStatus : Int) (d : Device) :
    (faultPowerLoss pinStatus d).1.lastPowerLossStatus = d.lastPowerLossStatus := by
  rw [faultPowerLoss_frame]

theorem publishFaults_flagBackgroundPublish (publishStatus current : Bool) (d : Device) :
    (publishFaults publishStatus current d).1.flagBackgroundPublish =
      d.flagBackgroundPublish := by
  rw [publishFaults_frame]

theorem faultPowerLoss_congr (pinStatus : Int) (d d' : Device)
    (htally : d.lastStateTally = d'.lastStateTally)
    (hpin : d.lastPinStatus = d'.lastPinStatus) :
    (faultPowerLoss pinStatus d).2 = (faultPowerLoss pinStatus d').2 := by
  simp only [faultPowerLoss, htally, hpin]
  split_ifs <;> rfl

theorem publishFaults_telemetry_events (publishStatus current : Bool) (d : Device) :
    (publishFaults publishStatus current d).2.1.filter (Effect.isEvent "z") = [] := by
  by_cases h : current = d.lastPowerLossStatus
  · rw [publishFaults_same _ _ d h]; rfl
  · rw [publishFaults_edge _ _ d h]
    cases current <;> simp [Effect.isEvent]

theorem faultPowerLoss_events (pinStatus : Int) (d : Device) (eventName : String) :
    (faultPowerLoss pinStatus d).2.1.filter (Effect.isEvent eventName) = [] := by
  rw [faultPowerLoss_effects]
  rfl

/-- The telemetry side of a `loop` iteration. -/
theorem loop_telemetry_part (i : LoopInput) (d : Device) :
    (loop i d).2.filter (Effect.isEvent "z") =
      (if d.flagBackgroundPublish = TRUE then
        (backgroundPublish i.telemetry i.telemetryStatus d).2.1 else []) ∧
    (loop i d).1.flagBackgroundPublish =
      (if d.flagBackgroundPublish = TRUE then 0 else d.flagBackgroundPublish) := by
  simp only [loop, loopHead]
  constructor
  · simp only [List.filter_append, faultPowerLoss_events, List.append_nil]
    split_ifs <;>
      simp [publishFaults_telemetry_events, backgroundPublish, Effect.isEvent]
  · split_ifs <;>
      simp only [publishFaults_flagBackgroundPublish, faultPowerLoss_flagBackgroundPublish] <;>
      rfl

/-- The statements of `loop` before the gate leave the publisher alone: they make
no "CRIT_FAULT" publish, keep `lastPowerLossStatus`, and the value they hold in
`flagPowerLossStatus` is what `faultPowerLoss` returns on the debounce state the
iteration was entered with. -/
theorem loopHead_publisher (i : LoopInput) (d : Device) :
    (loopHead i d).2.1.filter (Effect.isEvent "CRIT_FAULT") = [] ∧
    (loopHead i d).1.lastPowerLossStatus = d.lastPowerLossStatus ∧
    (loopHead i d).2.2 = (faultPowerLoss i.pinStatus d).2.2 := by
  have hbg : ∀ x : Device × List Effect,
      x = (if d.flagBackgroundPublish = TRUE then
        ((backgroundPublish i.telemetry i.telemetryStatus d).1,
          (backgroundPublish i.telemetry i.telemetryStatus d).2.1) else (d, [])) →
      x.2.filter (Effect.isEvent "CRIT_FAULT") = [] ∧
      (checkFuelGauge x.1).lastStateTally = d.lastStateTally ∧
      (checkFuelGauge x.1).lastPinStatus = d.lastPinStatus ∧
      (checkFuelGauge x.1).lastPowerLossStatus = d.lastPowerLossStatus := by
    intro x hx
    subst hx
    split_ifs
    · exact ⟨by simp [backgroundPublish, Effect.isEvent], rfl, rfl, rfl⟩
    · exact ⟨rfl, rfl, rfl, rfl⟩
  simp only [loopHead]
  generalize (if d.flagBackgroundPublish = TRUE then
    ((backgroundPublish i.telemetry i.telemetryStatus d).1,
      (backgroundPublish i.telemetry i.telemetryStatus d).2.1) else (d, [])) = x at hbg
  obtain ⟨hx, htally, hpin, hlast⟩ := hbg x rfl
  refine ⟨?_, ?_, ?_⟩
  · simp only [List.filter_append, faultPowerLoss_events, List.append_nil, hx]
  · simp only [faultPowerLoss_lastPowerLossStatus]
    exact hlast
  · exact congrArg Prod.snd (faultPowerLoss_congr i.pinStatus (checkFuelGauge x.1) d htally hpin)

/-! ### C11: the startup gate -/

/-- C11: in a loop iteration whose start time is below `CFG_STRTUPPUBDELAY`
(15000) `publishFaults` is not called: no "CRIT_FAULT" publish attempt is made
and `lastPowerLossStatus` is unchanged, whatever the debounced fault state is.
In an iteration whose start time is at least 15000 `publishFaults` is called,
once, with the value `faultPowerLoss` returned in that iteration, in a state
whose `lastPowerLossStatus` is still the one the iteration was entered with and
before any "CRIT_FAULT" publish of the iteration; the iteration consists of
the statements before the gate followed by those of that one call, whatever
the call does. -/
theorem loop_startup_gate (i : LoopInput) (d : Device) :
    (i.startTime < CFG_STRTUPPUBDELAY →
      loopPublishFaultsCall i d = none ∧
      (loop i d).2.filter (Effect.isEvent "CRIT_FAULT") = [] ∧
      (loop i d).1.lastPowerLossStatus = d.lastPowerLossStatus) ∧
    (CFG_STRTUPPUBDELAY ≤ i.startTime →
      loopPublishFaultsCall i d =
        some ((faultPowerLoss i.pinStatus d).2.2, (loopHead i d).1) ∧
      (loopHead i d).1.lastPowerLossStatus = d.lastPowerLossStatus ∧
      (loopHead i d).2.1.filter (Effect.isEvent "CRIT_FAULT") = [] ∧
      loop i d =
        ((publishFaults i.faultPublishStatus (faultPowerLoss i.pinStatus d).2.2
            (loopHead i d).1).1,
          (loopHead i d).2.1 ++
            (publishFaults i.faultPublishStatus (faultPowerLoss i.pinStatus d).2.2
              (loopHead i d).1).2.1)) ∧
    CFG_STRTUPPUBDELAY = 15000 := by
  obtain ⟨hev, hlast, hflag⟩ := loopHead_publisher i d
  refine ⟨?_, ?_, rfl⟩
  · intro hlt
    have hgate : ¬ startupGateOpen i.startTime = true := by
      simp only [startupGateOpen, decide_eq_true_eq, ge_iff_le, not_le]
      exact hlt
    simp only [loopPublishFaultsCall, loop, if_neg hgate, List.append_nil]
    exact ⟨trivial, hev, hlast⟩
  · intro hge
    have hgate : startupGateOpen i.startTime = true := by
      simp only [startupGateOpen, decide_eq_true_eq, ge_iff_le]
      exact hge
    simp only [loopPublishFaultsCall, loop, if_pos hgate, hflag]
    exact ⟨trivial, hlast, hev, trivial⟩

/-- Witness of C11: a HIGH sample at boot (fault active, nothing published yet),
one millisecond before the deadline and at the deadline. -/
theorem loop_startup_gate_witness :
    ((14999 : Nat) < CFG_STRTUPPUBDELAY ∧
      loopPublishFaultsCall
        { startTime := 14999, telemetry := ⟨0, 0, 0, 0⟩, telemetryStatus := true,
          pinStatus := HIGH, connected := true, faultPublishStatus := true }
        Device.boot = none) ∧
    (CFG_STRTUPPUBDELAY ≤ 15000 ∧
      loopPublishFaultsCall
        { startTime := 15000, telemetry := ⟨0, 0, 0, 0⟩, telemetryStatus := true,
          pinStatus := HIGH, connected := true, faultPublishStatus := true }
        Device.boot =
        some (true,
          { Device.boot with
            lastPinStatus := HIGH, lastStateTally := 1, count := 1, pinFaultLed := HIGH
            flagParticleConnectionStateHeartbeat := TRUE })) :=
  ⟨⟨by decide,
      ((loop_startup_gate ⟨14999, ⟨0, 0, 0, 0⟩, true, HIGH, true, true⟩
        Device.boot).1 (by decide)).1⟩,
    ⟨by decide,
      ((loop_startup_gate ⟨15000, ⟨0, 0, 0, 0⟩, true, HIGH, true, true⟩
        Device.boot).2.1 (by decide)).1.trans (by decide)⟩⟩

/-! ### C14: telemetry is fire-and-forget -/

/-- C14: in every loop iteration the telemetry publish of `backgroundPublish`
is made iff `flagBackgroundPublish` equals TRUE on entry; it is exactly one
publish attempt, and afterwards `flagBackgroundPublish` is 0 whatever the
transport answered, so the next iteration makes no telemetry publish; it makes
one again once `backgroundPublishCallback` has raised the flag. -/
theorem loop_telemetry_fire_and_forget (i next : LoopInput) (d : Device) :
    (d.flagBackgroundPublish = TRUE →
      (loop i d).2.filter (Effect.isEvent "z") =
        (backgroundPublish i.telemetry i.telemetryStatus d).2.1 ∧
      ((loop i d).2.filter (Effect.isEvent "z")).length = 1 ∧
      (loop i d).1.flagBackgroundPublish = 0 ∧
      (loop next (loop i d).1).2.filter (Effect.isEvent "z") = []) ∧
    (d.flagBackgroundPublish ≠ TRUE →
      (loop i d).2.filter (Effect.isEvent "z") = [] ∧
      (loop i d).1.flagBackgroundPublish = d.flagBackgroundPublish) ∧
    (∀ publishSuccess : Bool,
      (publishAttempts (backgroundPublish i.telemetry publishSuccess d).2.1).length = 1 ∧
      (backgroundPublish i.telemetry publishSuccess d).1.flagBackgroundPublish = 0) ∧
    ((loop next (backgroundPublishCallback (loop i d).1).1).2.filter
      (Effect.isEvent "z")).length = 1 := by
  obtain ⟨hev, hflag⟩ := loop_telemetry_part i d
  refine ⟨?_, ?_, fun _ => ⟨rfl, rfl⟩, ?_⟩
  · intro h
    rw [if_pos h] at hev hflag
    refine ⟨hev, by rw [hev]; rfl, hflag, ?_⟩
    rw [(loop_telemetry_part next (loop i d).1).1, hflag]
    rfl
  · intro h
    rw [if_neg h] at hev hflag
    exact ⟨hev, hflag⟩
  · rw [(loop_telemetry_part next _).1]
    rfl

/-- Witness of C14: the flag raised at boot and a transport that answers false. -/
theorem loop_telemetry_fire_and_forget_witness :
    ({ Device.boot with flagBackgroundPublish := 1 }).flagBackgroundPublish = TRUE ∧
    (loop { startTime := 0, telemetry := ⟨0, 0, 0, 0⟩, telemetryStatus := false,
            pinStatus := LOW, connected := true, faultPublishStatus := true }
      { Device.boot with flagBackgroundPublish := 1 }).1.flagBackgroundPublish = 0 ∧
    (loop { startTime := 1, telemetry := ⟨0, 0, 0, 1⟩, telemetryStatus := true,
            pinStatus := LOW, connected := true, faultPublishStatus := true }
      (loop { startTime := 0, telemetry := ⟨0, 0, 0, 0⟩, telemetryStatus := false,
              pinStatus := LOW, connected := true, faultPublishStatus := true }
        { Device.boot with flagBackgroundPublish := 1 }).1).2.filter
      (Effect.isEvent "z") = [] :=
  ⟨rfl,
    ((loop_telemetry_fire_and_forget ⟨0, ⟨0, 0, 0, 0⟩, false, LOW, true, true⟩
      ⟨1, ⟨0, 0, 0, 1⟩, true, LOW, true, true⟩
      { Device.boot with flagBackgroundPublish := 1 }).1 rfl).2.2.1,
    ((loop_telemetry_fire_and_forget ⟨0, ⟨0, 0, 0, 0⟩, false, LOW, true, true⟩
      ⟨1, ⟨0, 0, 0, 1⟩, true, LOW, true, true⟩
      { Device.boot with flagBackgroundPublish := 1 }).1 rfl).2.2.2⟩

/-! ### C20: the startup gate and the wrap of the millisecond counter -/

/-- C20, the code at the failing input: before the millisecond counter wraps the
gate of line 119 is open exactly from uptime `CFG_STRTUPPUBDELAY` on, but at the
true uptime `2 ^ 32` ms, which is past `CFG_STRTUPPUBDELAY`, `millis()` reads 0
and the gate is closed again; an iteration started then, with the fault active
and not yet published, makes no "CRIT_FAULT" publish, while the same iteration
started at uptime 15000 publishes "FLT_PWR". -/
theorem startupGate_closed_after_wrap :
    (∀ uptime : Nat, uptime < 2 ^ 32 →
      (startupGateOpen (millis uptime) = true ↔ CFG_STRTUPPUBDELAY ≤ uptime)) ∧
    CFG_STRTUPPUBDELAY ≤ 2 ^ 32 ∧
    millis (2 ^ 32) = 0 ∧
    startupGateOpen (millis 15000) = true ∧
    startupGateOpen (millis (2 ^ 32)) = false ∧
    (loop { startTime := millis (2 ^ 32), telemetry := ⟨0, 0, 0, 0⟩, telemetryStatus := true,
            pinStatus := HIGH, connected := true, faultPublishStatus := true }
      { Device.boot with lastStateTally := 101, lastPinStatus := HIGH }).2.filter
        (Effect.isEvent "CRIT_FAULT") = [] ∧
    (loop { startTime := millis 15000, telemetry := ⟨0, 0, 0, 0⟩, telemetryStatus := true,
            pinStatus := HIGH, connected := true, faultPublishStatus := true }
      { Device.boot with lastStateTally := 101, lastPinStatus := HIGH }).2.filter
        (Effect.isEvent "CRIT_FAULT") =
      [Effect.publish "CRIT_FAULT" "FLT_PWR" 60 PublishScope.PRIVATE] := by
  refine ⟨?_, by decide, by decide, by decide, by decide, by decide, by decide⟩
  intro uptime hlt
  simp only [startupGateOpen, millis, Nat.mod_eq_of_lt hlt, decide_eq_true_eq, ge_iff_le]

end RFSR
